import Mathlib

/-!
Verification development for `src/sandbox/freebsd-sandbox-utils.ts`, the
FreeBSD jail-based sandbox construction pipeline.

The development shallowly embeds the source file's operations:

* `generateJailFilesystemConfig` (the Mount Planner, source lines 230-372)
  is embedded as a pure function from an explicit host-filesystem view to
  the ordered list of mount/unmount command strings it produces.  Directory
  creation (`fs.mkdirSync`) is a side effect that does not influence the
  returned command lists and is therefore not modelled.
* `wrapCommandWithSandboxFreeBSD` (the Orchestrator, lines 377-512) is
  embedded twice, in lock-step with the source control flow: once as a
  result function returning `Except` and once as an event trace recording
  the order in which mount strings, jail arguments, errors and the final
  script are produced.
* The wrapper script (lines 488-501) is additionally given a structured
  form together with a small POSIX-shell semantics for `&&` / `;`
  sequencing, `EXIT_CODE=$?` capture and `exit $EXIT_CODE`, so that the
  script's runtime contract can be settled.
* `initializeFreeBSDNetworkBridge`'s readiness-polling loop (lines 149-194)
  is embedded as a bounded recursion over per-attempt observations of the
  two bridge processes and socket files, producing an event trace.
* `hasFreeBSDSandboxDependenciesSync` (lines 48-77) is embedded as an
  explicit state transformer over the module-level memoization cell.

External collaborators that live outside `src/` (`normalizePathForSandbox`,
`getMandatoryDenyWithinAllow`, `generateProxyEnvVars`, `shellquote.quote`,
`randomBytes`, `tmpdir`, `process.cwd`) are modelled as parameters of the
environment records, since no claim depends on their internals.
-/

/-- View of the host filesystem consulted by the planner: `fs.existsSync`
and `fs.statSync(p).isDirectory()`. -/
structure HostFs where
  pathExists : String → Bool
  isDir : String → Bool

/-- `FsReadRestrictionConfig` from `sandbox-schemas.ts` as consumed here:
only the `denyOnly` field is read (`readConfig?.denyOnly`). -/
structure FsReadRestrictionConfig where
  denyOnly : Option (List String)

/-- `FsWriteRestrictionConfig` as consumed here: `allowOnly` and
`denyWithinAllow`, each read with a `|| []` default. -/
structure FsWriteRestrictionConfig where
  allowOnly : Option (List String)
  denyWithinAllow : Option (List String)

/-- Environment of the Mount Planner: the host filesystem view, the
process working directory, the external path normalizer
`normalizePathForSandbox`, the external `getMandatoryDenyWithinAllow`
result, the shared temporary directory and the stream of random hex
suffixes used for the empty files that hide denied regular files. -/
structure PlanEnv where
  fsys : HostFs
  cwd : String
  norm : String → String
  mandatoryDeny : List String
  tmpdirPath : String
  freshHex : Nat → String

/-- Character-list prefix test, used as a kernel-computable equivalent of
`String.startsWith`. -/
def charsStartWith : List Char → List Char → Bool
  | [], _ => true
  | _ :: _, [] => false
  | p :: ps, c :: cs => if p = c then charsStartWith ps cs else false

/-- `s.startsWith p` (JavaScript `String.prototype.startsWith`). -/
def strStartsWith (s p : String) : Bool :=
  charsStartWith p.toList s.toList

/-- Node's `path.join` for the shapes used in the source: the second
component is either absolute (`/usr`, a normalized policy path, a socket
path) or a plain relative name (`dev`, `empty-<hex>`). -/
def jjoin (a b : String) : String :=
  if strStartsWith b "/" then a ++ b else a ++ "/" ++ b

/-- One planner output row: the mount command string pushed to `mounts`,
the unmount command string pushed to `unmounts` in the same loop step, the
jail-side mount point both refer to, and the host-side source of the mount
(`none` for the tmpfs hide, which binds no host content). -/
structure MountEntry where
  cmd : String
  umountCmd : String
  dst : String
  src : Option String
deriving Repr, DecidableEq

/-- One row of the `essentialMounts` table (source lines 249-256). -/
structure EssentialSpec where
  esrc : String
  edst : String
  ro : Bool

/-- The `essentialMounts` table: `/dev` read-write, the rest read-only,
with destinations `join(jailPath, 'dev')` and so on. -/
def essentialMountSpecs (jailPath : String) : List EssentialSpec :=
  [⟨"/dev", jjoin jailPath "dev", false⟩,
   ⟨"/usr", jjoin jailPath "usr", true⟩,
   ⟨"/bin", jjoin jailPath "bin", true⟩,
   ⟨"/lib", jjoin jailPath "lib", true⟩,
   ⟨"/libexec", jjoin jailPath "libexec", true⟩,
   ⟨"/etc", jjoin jailPath "etc", true⟩]

/-- Essential-mount loop (lines 258-268): skip sources missing on the
host; the command template is
`mount_nullfs ${ro ? '-o ro' : ''} ${src} ${dst}` (note the double space
in the read-write case, reproduced faithfully). -/
def essentialEntries (env : PlanEnv) (jailPath : String) : List MountEntry :=
  (essentialMountSpecs jailPath).filterMap (fun m =>
    if env.fsys.pathExists m.esrc then
      some { cmd := "mount_nullfs " ++ (if m.ro then "-o ro" else "") ++ " " ++ m.esrc ++ " " ++ m.edst,
             umountCmd := "umount " ++ m.edst,
             dst := m.edst,
             src := some m.esrc }
    else none)

/-- One step of the `allowOnly` loop (lines 277-302): normalize, skip
paths under `/dev/`, skip paths missing on the host, else bind read-write
at `join(jailPath, normalizedPath)`. -/
def allowEntry (env : PlanEnv) (jailPath p : String) : Option MountEntry :=
  let np := env.norm p
  if strStartsWith np "/dev/" then none
  else if env.fsys.pathExists np then
    let dst := jjoin jailPath np
    some { cmd := "mount_nullfs " ++ np ++ " " ++ dst,
           umountCmd := "umount " ++ dst,
           dst := dst,
           src := some np }
  else none

/-- The `allowOnly` loop over `writeConfig.allowOnly || []`. -/
def allowEntries (env : PlanEnv) (jailPath : String)
    (wc : FsWriteRestrictionConfig) : List MountEntry :=
  (wc.allowOnly.getD []).filterMap (allowEntry env jailPath)

/-- One step of the deny-within-allow loop (lines 310-328): normalize,
skip paths under `/dev/`, skip paths missing on the host, else remount
read-only at the same jail mount point. -/
def denyEntry (env : PlanEnv) (jailPath q : String) : Option MountEntry :=
  let nq := env.norm q
  if strStartsWith nq "/dev/" then none
  else if env.fsys.pathExists nq then
    let dst := jjoin jailPath nq
    some { cmd := "mount_nullfs -o ro " ++ nq ++ " " ++ dst,
           umountCmd := "umount " ++ dst,
           dst := dst,
           src := some nq }
  else none

/-- The deny-within-allow loop over
`[...(writeConfig.denyWithinAllow || []), ...(await getMandatoryDenyWithinAllow())]`. -/
def denyEntries (env : PlanEnv) (jailPath : String)
    (wc : FsWriteRestrictionConfig) : List MountEntry :=
  ((wc.denyWithinAllow.getD []) ++ env.mandatoryDeny).filterMap (denyEntry env jailPath)

/-- The no-write-restriction branch (lines 330-338): bind the process
working directory read-write into the jail at the same path. -/
def cwdEntry (env : PlanEnv) (jailPath : String) : MountEntry :=
  let dst := jjoin jailPath env.cwd
  { cmd := "mount_nullfs " ++ env.cwd ++ " " ++ dst,
    umountCmd := "umount " ++ dst,
    dst := dst,
    src := some env.cwd }

/-- The read-restriction loop (lines 342-368), threading the index `k`
of the next fresh random hex name (one `randomBytes` call per regular
file hidden): an existing directory is hidden by an empty tmpfs mount, an
existing regular file by a read-only nullfs bind of a freshly created
empty file under the temporary directory. -/
def readEntriesAux (env : PlanEnv) (jailPath : String) :
    List String → Nat → List MountEntry
  | [], _ => []
  | d :: ds, k =>
    let nd := env.norm d
    if env.fsys.pathExists nd then
      let dst := jjoin jailPath nd
      if env.fsys.isDir nd then
        { cmd := "mount -t tmpfs tmpfs " ++ dst,
          umountCmd := "umount " ++ dst,
          dst := dst,
          src := none } :: readEntriesAux env jailPath ds k
      else
        let emptyFile := jjoin env.tmpdirPath ("empty-" ++ env.freshHex k)
        { cmd := "mount_nullfs -o ro " ++ emptyFile ++ " " ++ dst,
          umountCmd := "umount " ++ dst,
          dst := dst,
          src := some emptyFile } :: readEntriesAux env jailPath ds (k + 1)
    else readEntriesAux env jailPath ds k

/-- The read-restriction phase guarded by `if (readConfig?.denyOnly)`. -/
def readEntries (env : PlanEnv) (jailPath : String)
    (rc : Option FsReadRestrictionConfig) : List MountEntry :=
  match rc with
  | none => []
  | some r =>
    match r.denyOnly with
    | none => []
    | some l => readEntriesAux env jailPath l 0

/-- The full planner output in source order: essential mounts, then the
write-policy branch (allow mounts followed by deny-within-allow remounts,
or the cwd mount when no write policy is given), then the read-policy
hides. -/
def planEntries (env : PlanEnv) (jailPath : String)
    (rc : Option FsReadRestrictionConfig)
    (wc : Option FsWriteRestrictionConfig) : List MountEntry :=
  essentialEntries env jailPath
    ++ (match wc with
        | some w => allowEntries env jailPath w ++ denyEntries env jailPath w
        | none => [cwdEntry env jailPath])
    ++ readEntries env jailPath rc

/-- `generateJailFilesystemConfig`: the `{ mounts, unmounts }` pair of
command-string lists, in push order. -/
def generateJailFilesystemConfig (env : PlanEnv) (jailPath : String)
    (rc : Option FsReadRestrictionConfig)
    (wc : Option FsWriteRestrictionConfig) : List String × List String :=
  ((planEntries env jailPath rc wc).map (fun e => e.cmd),
   (planEntries env jailPath rc wc).map (fun e => e.umountCmd))

/-- `FreeBSDSandboxParams`: the Orchestrator's sole input.  Optional
string/number fields of the TypeScript interface become `Option`. -/
structure FreeBSDSandboxParams where
  command : String
  hasNetworkRestrictions : Bool
  hasFilesystemRestrictions : Bool
  httpSocketPath : Option String
  socksSocketPath : Option String
  httpProxyPort : Option Nat
  socksProxyPort : Option Nat
  readConfig : Option FsReadRestrictionConfig
  writeConfig : Option FsWriteRestrictionConfig

/-- Environment of the Orchestrator: planner environment, the random hex
suffix of the jail name, the external `generateProxyEnvVars(3128, 1080)`
result, and the external `shellquote.quote`. -/
structure WrapEnv where
  plan : PlanEnv
  jailHex : String
  proxyEnvVars : List String
  shq : List String → String

/-- Single-quote character (written via its code point so that the file
contains no bare apostrophe). -/
def sqChar : Char := Char.ofNat 39

/-- Backslash character. -/
def bsChar : Char := Char.ofNat 92

/-- The global single-quote replacement of line 482: every single quote
in the inner program becomes quote-backslash-quote-quote. -/
def escapeSingleQuotes (s : String) : String :=
  String.mk (s.toList.foldr (fun c acc =>
    if c = sqChar then sqChar :: bsChar :: sqChar :: sqChar :: acc else c :: acc) [])

/-- Helper for `splitFirstEq`: split a character list at the first `=`. -/
def splitAtFirstEqAux : List Char → Option (List Char × List Char)
  | [] => none
  | c :: cs =>
    if c = '=' then some ([], cs)
    else
      match splitAtFirstEqAux cs with
      | none => none
      | some (k, v) => some (c :: k, v)

/-- The `indexOf('=')` / `slice` split of an environment assignment
(lines 473-475).  When no `=` occurs, the source's slice arithmetic gives
(all but the last character, the whole string); reproduced faithfully. -/
def splitFirstEq (s : String) : String × String :=
  match splitAtFirstEqAux s.toList with
  | some (k, v) => (String.mk k, String.mk v)
  | none => (String.mk s.toList.dropLast, s)

/-- `buildJailCommand` (lines 210-224): the inner shell program run as the
jail's command, with the two in-jail socat listeners, the exit trap, and
the quoted user command. -/
def buildJailCommand (shq : List String → String)
    (httpSocketPath socksSocketPath userCommand : String) : String :=
  let innerScript := String.intercalate "\n"
    ["socat TCP-LISTEN:3128,fork,reuseaddr UNIX-CONNECT:" ++ httpSocketPath ++ " >/dev/null 2>&1 &",
     "socat TCP-LISTEN:1080,fork,reuseaddr UNIX-CONNECT:" ++ socksSocketPath ++ " >/dev/null 2>&1 &",
     "trap \"kill %1 %2 2>/dev/null; exit\" EXIT",
     "eval " ++ shq [userCommand]]
  "sh -c " ++ shq [innerScript]

/-- The basic jail arguments (lines 417-420). -/
def basicJailArgs (jailName jailPath : String) : List String :=
  ["-c", "name=" ++ jailName, "path=" ++ jailPath, "host.hostname=" ++ jailName]

/-- Network-isolation arguments (lines 432-433). -/
def vnetArgs : List String := ["vnet", "allow.raw_sockets=1"]

/-- Host-network inheritance arguments (lines 455-456). -/
def inheritNetArgs : List String := ["ip4=inherit", "ip6=inherit"]

/-- Hardening arguments (lines 460-463). -/
def hardeningArgs : List String :=
  ["persist=0", "allow.mount=0", "allow.set_hostname=0", "allow.sysvipc=0"]

/-- The `env.<NAME>=<VALUE>` jail arguments (lines 472-477). -/
def proxyEnvJailArgs (vars : List String) : List String :=
  vars.map (fun e =>
    let kv := splitFirstEq e
    "env." ++ kv.1 ++ "=" ++ kv.2)

/-- The final `command=` jail argument (line 482): the inner program in a
single-quoted `sh -c` invocation with embedded single quotes escaped. -/
def commandJailArg (jailCommand : String) : String :=
  "command=sh -c " ++ String.singleton sqChar
    ++ escapeSingleQuotes jailCommand ++ String.singleton sqChar

/-- The wrapper script string (lines 488-499): the five parts joined by
a short-circuiting and, with the unmount commands themselves joined by
semicolons. -/
def wrapperScriptString (mounts unmounts : List String)
    (jailLine jailPath : String) : String :=
  String.intercalate " && "
    [String.intercalate " && " mounts,
     jailLine,
     "EXIT_CODE=$?",
     String.intercalate "; " unmounts,
     "rm -rf " ++ jailPath,
     "exit $EXIT_CODE"]

/-- The only error the Orchestrator itself throws. -/
inductive WrapError where
  | MissingBridgeConfig
deriving Repr, DecidableEq

/-- `wrapCommandWithSandboxFreeBSD` (lines 377-512) as a result function.
Mirrors the source control flow: identity when no restriction flag is
set; otherwise plan mounts, build basic jail arguments, then either fail
on missing bridge socket paths (a `undefined` or empty-string socket path
is falsy in the source test of line 424), or extend mounts/unmounts with
the bridge-socket binds and assemble the wrapper script. -/
def wrapCommandWithSandboxFreeBSD (env : WrapEnv) (p : FreeBSDSandboxParams) :
    Except WrapError String :=
  if p.hasNetworkRestrictions = false ∧ p.hasFilesystemRestrictions = false then
    Except.ok p.command
  else
    let jailName := "sbx_" ++ env.jailHex
    let jailPath := jjoin env.plan.tmpdirPath jailName
    let entries := planEntries env.plan jailPath p.readConfig p.writeConfig
    let mounts := entries.map (fun e => e.cmd)
    let unmounts := entries.map (fun e => e.umountCmd)
    let args0 := basicJailArgs jailName jailPath
    if p.hasNetworkRestrictions then
      match p.httpSocketPath, p.socksSocketPath with
      | some hs, some ss =>
        if hs = "" ∨ ss = "" then Except.error WrapError.MissingBridgeConfig
        else
          let httpSocketJail := jjoin jailPath hs
          let socksSocketJail := jjoin jailPath ss
          let mounts2 := mounts ++
            ["mount_nullfs " ++ hs ++ " " ++ httpSocketJail,
             "mount_nullfs " ++ ss ++ " " ++ socksSocketJail]
          let unmounts2 := ("umount " ++ socksSocketJail)
            :: ("umount " ++ httpSocketJail) :: unmounts
          let jailCommand := buildJailCommand env.shq hs ss p.command
          let args := args0 ++ vnetArgs ++ hardeningArgs
            ++ proxyEnvJailArgs env.proxyEnvVars ++ [commandJailArg jailCommand]
          let jailLine := env.shq ("jail" :: args)
          Except.ok ("sh -c "
            ++ env.shq [wrapperScriptString mounts2 unmounts2 jailLine jailPath])
      | _, _ => Except.error WrapError.MissingBridgeConfig
    else
      let args := args0 ++ inheritNetArgs ++ hardeningArgs ++ [commandJailArg p.command]
      let jailLine := env.shq ("jail" :: args)
      Except.ok ("sh -c "
        ++ env.shq [wrapperScriptString mounts unmounts jailLine jailPath])

/-- Observable steps of one `wrapCommandWithSandboxFreeBSD` run, in the
order the source performs them. -/
inductive WrapStep where
  | producedMounts (mounts unmounts : List String)
  | producedBasicArgs (args : List String)
  | threw (e : WrapError)
  | addedBridgeMounts (mounts unmounts : List String)
  | returnedScript (script : String)
  | returnedUnchanged (c : String)
deriving Repr, DecidableEq

/-- The event trace of `wrapCommandWithSandboxFreeBSD`, recording that the
planner runs (line 407) and the basic jail arguments are pushed (lines
417-420) before the missing-socket check of line 424 can throw, and that
bridge-socket mounts (lines 449-452) and the final script (line 501) come
after it. -/
def wrapTrace (env : WrapEnv) (p : FreeBSDSandboxParams) : List WrapStep :=
  if p.hasNetworkRestrictions = false ∧ p.hasFilesystemRestrictions = false then
    [WrapStep.returnedUnchanged p.command]
  else
    let jailName := "sbx_" ++ env.jailHex
    let jailPath := jjoin env.plan.tmpdirPath jailName
    let entries := planEntries env.plan jailPath p.readConfig p.writeConfig
    let mounts := entries.map (fun e => e.cmd)
    let unmounts := entries.map (fun e => e.umountCmd)
    let args0 := basicJailArgs jailName jailPath
    WrapStep.producedMounts mounts unmounts ::
    WrapStep.producedBasicArgs args0 ::
    (if p.hasNetworkRestrictions then
      match p.httpSocketPath, p.socksSocketPath with
      | some hs, some ss =>
        if hs = "" ∨ ss = "" then [WrapStep.threw WrapError.MissingBridgeConfig]
        else
          let httpSocketJail := jjoin jailPath hs
          let socksSocketJail := jjoin jailPath ss
          let mounts2 := mounts ++
            ["mount_nullfs " ++ hs ++ " " ++ httpSocketJail,
             "mount_nullfs " ++ ss ++ " " ++ socksSocketJail]
          let unmounts2 := ("umount " ++ socksSocketJail)
            :: ("umount " ++ httpSocketJail) :: unmounts
          let jailCommand := buildJailCommand env.shq hs ss p.command
          let args := args0 ++ vnetArgs ++ hardeningArgs
            ++ proxyEnvJailArgs env.proxyEnvVars ++ [commandJailArg jailCommand]
          let jailLine := env.shq ("jail" :: args)
          [WrapStep.addedBridgeMounts mounts2 unmounts2,
           WrapStep.returnedScript ("sh -c "
             ++ env.shq [wrapperScriptString mounts2 unmounts2 jailLine jailPath])]
      | _, _ => [WrapStep.threw WrapError.MissingBridgeConfig]
     else
      let args := args0 ++ inheritNetArgs ++ hardeningArgs ++ [commandJailArg p.command]
      let jailLine := env.shq ("jail" :: args)
      [WrapStep.returnedScript ("sh -c "
        ++ env.shq [wrapperScriptString mounts unmounts jailLine jailPath])])

/-- Connector between two adjacent commands of the wrapper script string:
the short-circuiting and (from the joins of lines 488 and 492-499) or the
semicolon (from the join of line 489). -/
inductive Conn where
  | seqAnd
  | seqSemi
deriving Repr, DecidableEq

/-- A simple command of the wrapper script: an external command (mount,
jail, umount, rm), the `EXIT_CODE=$?` assignment, or `exit $EXIT_CODE`. -/
inductive ScriptCmd where
  | prim (s : String)
  | captureExit
  | exitCaptured
deriving Repr, DecidableEq

/-- The wrapper script of lines 492-499 in structured form: each command
with the connector that precedes it in the string.  The unmount block is
internally semicolon-joined; everything else is joined by the
short-circuiting and.  (With an empty unmount list the source string is
not well-formed shell; the structured form drops the empty block.) -/
def wrapperItems (mounts unmounts : List String) (jailLine rmLine : String) :
    List (Conn × ScriptCmd) :=
  mounts.map (fun m => (Conn.seqAnd, ScriptCmd.prim m))
  ++ [(Conn.seqAnd, ScriptCmd.prim jailLine), (Conn.seqAnd, ScriptCmd.captureExit)]
  ++ (match unmounts with
      | [] => []
      | u :: us =>
        (Conn.seqAnd, ScriptCmd.prim u)
          :: us.map (fun x => (Conn.seqSemi, ScriptCmd.prim x)))
  ++ [(Conn.seqAnd, ScriptCmd.prim rmLine), (Conn.seqAnd, ScriptCmd.exitCaptured)]

/-- Text of one structured command. -/
def renderCmd : ScriptCmd → String
  | ScriptCmd.prim s => s
  | ScriptCmd.captureExit => "EXIT_CODE=$?"
  | ScriptCmd.exitCaptured => "exit $EXIT_CODE"

/-- Text of one connector. -/
def renderConn : Conn → String
  | Conn.seqAnd => " && "
  | Conn.seqSemi => "; "

/-- Text of the structured script; agreement with `wrapperScriptString` is
established at the concrete instances where it is needed. -/
def renderItems : List (Conn × ScriptCmd) → String
  | [] => ""
  | it :: rest =>
    renderCmd it.2 ++ String.join (rest.map (fun jt => renderConn jt.1 ++ renderCmd jt.2))

/-- POSIX-shell execution state for the wrapper script: the status of the
last command (`$?`), the `EXIT_CODE` variable, the commands actually
executed, and the argument of an executed `exit`. -/
structure ShellState where
  lastStatus : Nat
  exitVar : Option Nat
  ran : List ScriptCmd
  halted : Option Nat
deriving Repr, DecidableEq

/-- Shell start state. -/
def initialShellState : ShellState :=
  { lastStatus := 0, exitVar := none, ran := [], halted := none }

/-- Effect of one executed command.  An assignment has exit status 0; the
final `exit $EXIT_CODE` uses the captured value, or — when `EXIT_CODE`
was never assigned, so the parameter expands to nothing — behaves as a
bare `exit`, exiting with the status of the last executed command. -/
def stepCmd (status : String → Nat) (st : ShellState) : ScriptCmd → ShellState
  | ScriptCmd.prim s =>
    { st with lastStatus := status s, ran := st.ran ++ [ScriptCmd.prim s] }
  | ScriptCmd.captureExit =>
    { st with exitVar := some st.lastStatus, lastStatus := 0,
              ran := st.ran ++ [ScriptCmd.captureExit] }
  | ScriptCmd.exitCaptured =>
    { st with halted := some (st.exitVar.getD st.lastStatus),
              ran := st.ran ++ [ScriptCmd.exitCaptured] }

/-- Run the structured script: a command preceded by the short-circuiting
and is skipped (state unchanged) when the current status is nonzero; a
command preceded by a semicolon always runs; `exit` stops the script. -/
def execItems (status : String → Nat) :
    List (Conn × ScriptCmd) → ShellState → ShellState
  | [], st => st
  | (c, k) :: rest, st =>
    if st.halted.isSome then st
    else if c = Conn.seqAnd ∧ st.lastStatus ≠ 0 then execItems status rest st
    else execItems status rest (stepCmd status st k)

/-- Final state of the wrapper script from the start state. -/
def runWrapperScript (status : String → Nat)
    (items : List (Conn × ScriptCmd)) : ShellState :=
  execItems status items initialShellState

/-- The script's own final exit status: the `exit` argument if `exit`
ran, otherwise the status of the last executed command. -/
def scriptFinalStatus (status : String → Nat)
    (items : List (Conn × ScriptCmd)) : Nat :=
  let st := runWrapperScript status items
  st.halted.getD st.lastStatus

/-- The fields of a bridge `ChildProcess` that the readiness loop of
`initializeFreeBSDNetworkBridge` reads. -/
structure BridgeProcView where
  pid : Option Nat
  killed : Bool

/-- Per-attempt observations of the readiness loop (lines 149-194): the
two process views, the `fs.existsSync` answers for the two socket paths,
and whether the existence check throws (the caught branch, lines
166-170). -/
structure BridgeEnv where
  httpProc : Nat → BridgeProcView
  socksProc : Nat → BridgeProcView
  httpSock : Nat → Bool
  socksSock : Nat → Bool
  checkThrows : Nat → Bool

/-- JavaScript truthiness of a `pid` field (a number or `undefined`). -/
def pidTruthy : Option Nat → Bool
  | none => false
  | some n => decide (n ≠ 0)

/-- The liveness test of lines 152-157 (negated: `true` means the loop
does not throw `BridgeProcessDied` at this attempt). -/
def bridgeAlive (env : BridgeEnv) (i : Nat) : Bool :=
  pidTruthy (env.httpProc i).pid && !(env.httpProc i).killed
    && pidTruthy (env.socksProc i).pid && !(env.socksProc i).killed

/-- The socket-readiness test of line 162. -/
def bridgeSockOk (env : BridgeEnv) (i : Nat) : Bool :=
  env.httpSock i && env.socksSock i

/-- `maxAttempts` (line 150). -/
def maxAttempts : Nat := 5

/-- Observable events of the readiness loop, in program order. -/
inductive BridgeEvent where
  | checkedLiveness (i : Nat)
  | diedFailure
  | checkedSockets (i : Nat)
  | checkFailedLogged (i : Nat)
  | ready (i : Nat)
  | sentKillHttp
  | sentKillSocks
  | notReadyFailure
  | slept (ms : Nat)
deriving Repr, DecidableEq

/-- The loop body of lines 151-194, from attempt `i` with `rem` loop
iterations left: liveness check first (throwing `BridgeProcessDied` if it
fails), then the socket check (breaking on readiness), then — on the last
attempt — a termination-signal attempt on each process that has a pid
followed by the `BridgeNotReady` throw, otherwise a sleep of `i * 100`
milliseconds before the next attempt. -/
def bridgeAttemptsFrom (env : BridgeEnv) : Nat → Nat → List BridgeEvent
  | _, 0 => []
  | i, rem + 1 =>
    if bridgeAlive env i = false then
      [BridgeEvent.checkedLiveness i, BridgeEvent.diedFailure]
    else
      let sockEvents := if env.checkThrows i then [BridgeEvent.checkFailedLogged i]
        else [BridgeEvent.checkedSockets i]
      if (!env.checkThrows i && bridgeSockOk env i) = true then
        BridgeEvent.checkedLiveness i :: sockEvents ++ [BridgeEvent.ready i]
      else
        BridgeEvent.checkedLiveness i :: sockEvents ++
          (if i = maxAttempts - 1 then
            (if pidTruthy (env.httpProc i).pid then [BridgeEvent.sentKillHttp] else [])
            ++ (if pidTruthy (env.socksProc i).pid then [BridgeEvent.sentKillSocks] else [])
            ++ [BridgeEvent.notReadyFailure]
          else
            BridgeEvent.slept (i * 100) :: bridgeAttemptsFrom env (i + 1) rem)

/-- The whole readiness wait (the `for` loop of line 151). -/
def bridgeWaitEvents (env : BridgeEnv) : List BridgeEvent :=
  bridgeAttemptsFrom env 0 maxAttempts

/-- How the readiness wait ends. -/
inductive BridgeOutcome where
  | readyOk
  | processDied
  | notReady
deriving Repr, DecidableEq

/-- Outcome of the readiness wait, read off the last event. -/
def bridgeOutcome (env : BridgeEnv) : BridgeOutcome :=
  match (bridgeWaitEvents env).getLast? with
  | some BridgeEvent.diedFailure => BridgeOutcome.processDied
  | some BridgeEvent.notReadyFailure => BridgeOutcome.notReady
  | _ => BridgeOutcome.readyOk

/-- One `spawnSync('which', ...)` probe triple; `none` models the caught
exception of line 73, a `none` status models a null `status` field. -/
structure DepProbe where
  jailStatus : Option Int
  socatStatus : Option Int
  rgStatus : Option Int

/-- `hasFreeBSDSandboxDependenciesSync` (lines 48-77) as a transformer of
the module-level `freebsdDepsCache` cell: returns the cached boolean when
present; otherwise computes the conjunction of the three zero-status
tests (or `false` on a thrown probe) and caches it. -/
def hasFreeBSDSandboxDependenciesSync (freebsdDepsCache : Option Bool)
    (probe : Option DepProbe) : Bool × Option Bool :=
  match freebsdDepsCache with
  | some b => (b, some b)
  | none =>
    match probe with
    | none => (false, some false)
    | some pr =>
      let b := decide (pr.jailStatus = some 0) && decide (pr.socatStatus = some 0)
        && decide (pr.rgStatus = some 0)
      (b, some b)

/-- A sequence of calls within one process lifetime, each with its own
probe observation, threading the cache cell. -/
def depsCallResults (freebsdDepsCache : Option Bool) :
    List (Option DepProbe) → List Bool
  | [] => []
  | pr :: ps =>
    let r := hasFreeBSDSandboxDependenciesSync freebsdDepsCache pr
    r.1 :: depsCallResults r.2 ps

-- Sanity check environment for scratch evaluation.
def sandboxSampleFs : HostFs :=
  { pathExists := fun s => (["/dev", "/usr", "/a", "/a/b"].contains s),
    isDir := fun s => (["/dev", "/usr", "/a", "/a/b"].contains s) }

def sandboxSampleEnv : PlanEnv :=
  { fsys := sandboxSampleFs
    cwd := "/w"
    norm := id
    mandatoryDeny := []
    tmpdirPath := "/tmp"
    freshHex := fun _ => "cafe" }

example :
    (generateJailFilesystemConfig sandboxSampleEnv "/tmp/j" none none).1 =
      ["mount_nullfs  /dev /tmp/j/dev",
       "mount_nullfs -o ro /usr /tmp/j/usr",
       "mount_nullfs /w /tmp/j/w"] := by decide

example :
    (generateJailFilesystemConfig sandboxSampleEnv "/tmp/j" none
        (some ⟨some ["/a"], some ["/a/b"]⟩)).1 =
      ["mount_nullfs  /dev /tmp/j/dev",
       "mount_nullfs -o ro /usr /tmp/j/usr",
       "mount_nullfs /a /tmp/j/a",
       "mount_nullfs -o ro /a/b /tmp/j/a/b"] := by decide

/-- A concrete stand-in for the external `shellquote.quote`, used by the
closed-instance theorems (no claim depends on the quoting transform
itself). -/
def joinBySpace (l : List String) : String :=
  String.intercalate " " l

/-- Every read-phase entry pairs its unmount with its own mount point. -/
theorem mem_readEntriesAux_umount (env : PlanEnv) (jailPath : String) :
    ∀ (l : List String) (k : Nat), ∀ e ∈ readEntriesAux env jailPath l k,
      e.umountCmd = "umount " ++ e.dst := by
  intro l
  induction l with
  | nil => intro k e he; simp [readEntriesAux] at he
  | cons d ds ih =>
    intro k e he
    simp only [readEntriesAux] at he
    split_ifs at he with h1 h2
    · rcases List.mem_cons.mp he with h | h
      · subst h; rfl
      · exact ih k e h
    · rcases List.mem_cons.mp he with h | h
      · subst h; rfl
      · exact ih (k + 1) e h
    · exact ih k e he

/-- Every planner entry pairs its unmount command with its own mount
point: the invariant that each push to `mounts` is accompanied by a push
of `umount <same destination>` to `unmounts`. -/
theorem mem_planEntries_umount (env : PlanEnv) (jailPath : String)
    (rc : Option FsReadRestrictionConfig) (wc : Option FsWriteRestrictionConfig) :
    ∀ e ∈ planEntries env jailPath rc wc, e.umountCmd = "umount " ++ e.dst := by
  intro e he
  cases wc with
  | none =>
    unfold planEntries at he
    simp only [List.mem_append] at he
    rcases he with (he | he) | he
    · rcases List.mem_filterMap.mp he with ⟨m, -, hm⟩
      split_ifs at hm <;>
        first
          | (injection hm with hm; subst hm; rfl)
          | simp at hm
    · rcases List.mem_singleton.mp he with rfl; rfl
    · cases rc with
      | none => simp [readEntries] at he
      | some r =>
        cases hdo : r.denyOnly with
        | none => simp [readEntries, hdo] at he
        | some l =>
          simp only [readEntries, hdo] at he
          exact mem_readEntriesAux_umount env jailPath l 0 e he
  | some w =>
    unfold planEntries at he
    simp only [List.mem_append] at he
    rcases he with (he | he | he) | he
    · rcases List.mem_filterMap.mp he with ⟨m, -, hm⟩
      split_ifs at hm <;>
        first
          | (injection hm with hm; subst hm; rfl)
          | simp at hm
    · rcases List.mem_filterMap.mp he with ⟨a, -, hm⟩
      simp only [allowEntry] at hm
      split_ifs at hm <;>
        first
          | (injection hm with hm; subst hm; rfl)
          | simp at hm
    · rcases List.mem_filterMap.mp he with ⟨q, -, hm⟩
      simp only [denyEntry] at hm
      split_ifs at hm <;>
        first
          | (injection hm with hm; subst hm; rfl)
          | simp at hm
    · cases rc with
      | none => simp [readEntries] at he
      | some r =>
        cases hdo : r.denyOnly with
        | none => simp [readEntries, hdo] at he
        | some l =>
          simp only [readEntries, hdo] at he
          exact mem_readEntriesAux_umount env jailPath l 0 e he

/-- Pointwise map-extensionality helper for lists. -/
theorem list_map_eq_of_mem {α β : Type} (f g : α → β) :
    ∀ (l : List α), (∀ a ∈ l, f a = g a) → l.map f = l.map g := by
  intro l
  induction l with
  | nil => intro _; rfl
  | cons a as ih =>
    intro h
    simp only [List.map_cons]
    rw [h a (List.mem_cons_self a as), ih (fun x hx => h x (List.mem_cons_of_mem a hx))]

/-- C6: for every `FreeBSDSandboxParams` with `hasNetworkRestrictions`
false and `hasFilesystemRestrictions` false,
`wrapCommandWithSandboxFreeBSD` returns `params.command` unchanged. -/
theorem c6_identity_when_unrestricted (env : WrapEnv) (p : FreeBSDSandboxParams)
    (hn : p.hasNetworkRestrictions = false)
    (hf : p.hasFilesystemRestrictions = false) :
    wrapCommandWithSandboxFreeBSD env p = Except.ok p.command := by
  unfold wrapCommandWithSandboxFreeBSD
  simp [hn, hf]

def c6WrapEnv : WrapEnv :=
  { plan := sandboxSampleEnv, jailHex := "0123456789abcdef",
    proxyEnvVars := [], shq := joinBySpace }

def c6Params : FreeBSDSandboxParams :=
  { command := "echo hi", hasNetworkRestrictions := false,
    hasFilesystemRestrictions := false, httpSocketPath := none,
    socksSocketPath := none, httpProxyPort := none, socksProxyPort := none,
    readConfig := none, writeConfig := none }

/-- C6 witness: the identity case at a concrete input. -/
theorem c6_identity_when_unrestricted_witness :
    wrapCommandWithSandboxFreeBSD c6WrapEnv c6Params = Except.ok "echo hi" :=
  c6_identity_when_unrestricted c6WrapEnv c6Params rfl rfl

/-- After the first call the cache cell is the returned boolean. -/
theorem depsCheck_caches_result (pr : Option DepProbe) :
    (hasFreeBSDSandboxDependenciesSync none pr).2
      = some (hasFreeBSDSandboxDependenciesSync none pr).1 := by
  cases pr <;> rfl

/-- With a populated cache every later call returns the cached boolean,
whatever its probe observes. -/
theorem depsCallResults_cached (b : Bool) (ps : List (Option DepProbe)) :
    depsCallResults (some b) ps = ps.map (fun _ => b) := by
  induction ps with
  | nil => rfl
  | cons pr ps ih => simp [depsCallResults, hasFreeBSDSandboxDependenciesSync, ih]

/-- C9: `hasFreeBSDSandboxDependenciesSync` returns the same boolean on
every call within one process lifetime (the cache cell starts `undefined`
at module load), for any two calls of any call sequence, regardless of the
probe results changing between calls. -/
theorem c9_deps_memoized (ps : List (Option DepProbe)) (r₁ r₂ : Bool)
    (h₁ : r₁ ∈ depsCallResults none ps) (h₂ : r₂ ∈ depsCallResults none ps) :
    r₁ = r₂ := by
  cases ps with
  | nil => simp [depsCallResults] at h₁
  | cons pr ps =>
    have hexp : depsCallResults none (pr :: ps)
        = (hasFreeBSDSandboxDependenciesSync none pr).1
            :: ps.map (fun _ => (hasFreeBSDSandboxDependenciesSync none pr).1) := by
      rw [depsCallResults, depsCheck_caches_result, depsCallResults_cached]
    rw [hexp] at h₁ h₂
    have hall : ∀ x ∈ (hasFreeBSDSandboxDependenciesSync none pr).1
        :: ps.map (fun _ => (hasFreeBSDSandboxDependenciesSync none pr).1),
        x = (hasFreeBSDSandboxDependenciesSync none pr).1 := by
      intro x hx
      rcases List.mem_cons.mp hx with h | h
      · exact h
      · rcases List.mem_map.mp h with ⟨a, -, ha⟩
        exact ha.symm
    rw [hall r₁ h₁, hall r₂ h₂]

def c9ProbeSeq : List (Option DepProbe) :=
  [some ⟨some 0, some 0, some 0⟩, none]

/-- C9 witness: a two-call sequence whose first probe finds all three
tools and whose second probe would throw; both calls return `true`. -/
theorem c9_deps_memoized_witness : (true : Bool) = true :=
  c9_deps_memoized c9ProbeSeq true true (by decide) (by decide)

/-- Whether a step produced mount command strings or jail argument
strings. -/
def isProductionStep : WrapStep → Bool
  | WrapStep.producedMounts _ _ => true
  | WrapStep.producedBasicArgs _ => true
  | WrapStep.addedBridgeMounts _ _ => true
  | _ => false

/-- Whether a step is a thrown error. -/
def isThrowStep : WrapStep → Bool
  | WrapStep.threw _ => true
  | _ => false

/-- Whether some production step occurs strictly before the first thrown
error of a trace. -/
def productionBeforeThrow (t : List WrapStep) : Bool :=
  (t.takeWhile (fun s => !isThrowStep s)).any isProductionStep

def c3PlanEnv : PlanEnv :=
  { fsys := { pathExists := fun s => (["/usr"].contains s),
              isDir := fun s => (["/usr"].contains s) },
    cwd := "/w", norm := id, mandatoryDeny := [], tmpdirPath := "/tmp",
    freshHex := fun _ => "00" }

def c3WrapEnv : WrapEnv :=
  { plan := c3PlanEnv, jailHex := "aa", proxyEnvVars := [], shq := joinBySpace }

def c3Params : FreeBSDSandboxParams :=
  { command := "echo hi", hasNetworkRestrictions := true,
    hasFilesystemRestrictions := false, httpSocketPath := none,
    socksSocketPath := some "/tmp/s.sock", httpProxyPort := none,
    socksProxyPort := none, readConfig := none, writeConfig := none }

/-- C3 counterexample: at this concrete input (network restriction
requested, `httpSocketPath` absent) the call does fail with
`MissingBridgeConfig`, but the filesystem mount command strings and the
basic jail argument strings are produced strictly before the throw,
refuting the claim that the failure occurs before any jail argument
strings or mount command strings are produced. -/
theorem c3_production_before_throw_counterexample :
    wrapCommandWithSandboxFreeBSD c3WrapEnv c3Params
        = Except.error WrapError.MissingBridgeConfig
      ∧ productionBeforeThrow (wrapTrace c3WrapEnv c3Params) = true := by
  constructor
  · rfl
  · rfl

/-- C3 amended: whenever network restriction is requested and a bridge
socket path is absent, construction fails with `MissingBridgeConfig`
(no wrapper script is returned and no bridge-socket mounts are added),
but the failure occurs after the filesystem mount commands and the basic
jail arguments have been produced. -/
theorem c3_missing_bridge_config_amended (env : WrapEnv)
    (p : FreeBSDSandboxParams) (hn : p.hasNetworkRestrictions = true)
    (hs : p.httpSocketPath = none ∨ p.socksSocketPath = none) :
    wrapCommandWithSandboxFreeBSD env p
        = Except.error WrapError.MissingBridgeConfig
      ∧ wrapTrace env p =
          [WrapStep.producedMounts
             ((planEntries env.plan
                 (jjoin env.plan.tmpdirPath ("sbx_" ++ env.jailHex))
                 p.readConfig p.writeConfig).map (fun e => e.cmd))
             ((planEntries env.plan
                 (jjoin env.plan.tmpdirPath ("sbx_" ++ env.jailHex))
                 p.readConfig p.writeConfig).map (fun e => e.umountCmd)),
           WrapStep.producedBasicArgs
             (basicJailArgs ("sbx_" ++ env.jailHex)
               (jjoin env.plan.tmpdirPath ("sbx_" ++ env.jailHex))),
           WrapStep.threw WrapError.MissingBridgeConfig] := by
  have hflag : ¬ (p.hasNetworkRestrictions = false
      ∧ p.hasFilesystemRestrictions = false) := by
    simp [hn]
  rcases hs with h | h
  · constructor
    · cases hq : p.socksSocketPath <;>
        simp [wrapCommandWithSandboxFreeBSD, hflag, hn, h, hq]
    · cases hq : p.socksSocketPath <;>
        simp [wrapTrace, hflag, hn, h, hq]
  · constructor
    · cases hq : p.httpSocketPath <;>
        simp [wrapCommandWithSandboxFreeBSD, hflag, hn, h, hq]
    · cases hq : p.httpSocketPath <;>
        simp [wrapTrace, hflag, hn, h, hq]

/-- C3 amended witness at a concrete input. -/
theorem c3_missing_bridge_config_amended_witness :
    wrapCommandWithSandboxFreeBSD c3WrapEnv c3Params
        = Except.error WrapError.MissingBridgeConfig
      ∧ wrapTrace c3WrapEnv c3Params =
          [WrapStep.producedMounts
             ((planEntries c3WrapEnv.plan
                 (jjoin c3WrapEnv.plan.tmpdirPath ("sbx_" ++ c3WrapEnv.jailHex))
                 c3Params.readConfig c3Params.writeConfig).map (fun e => e.cmd))
             ((planEntries c3WrapEnv.plan
                 (jjoin c3WrapEnv.plan.tmpdirPath ("sbx_" ++ c3WrapEnv.jailHex))
                 c3Params.readConfig c3Params.writeConfig).map (fun e => e.umountCmd)),
           WrapStep.producedBasicArgs
             (basicJailArgs ("sbx_" ++ c3WrapEnv.jailHex)
               (jjoin c3WrapEnv.plan.tmpdirPath ("sbx_" ++ c3WrapEnv.jailHex))),
           WrapStep.threw WrapError.MissingBridgeConfig] :=
  c3_missing_bridge_config_amended c3WrapEnv c3Params rfl (Or.inl rfl)

/-- The unmount list the spec describes (stated from the spec words, for
comparison with the source-derived planner): the mount sequence exactly
reversed, each unmount targeting the mount point of the corresponding
mount. -/
def specReversedUnmounts (entries : List MountEntry) : List String :=
  entries.reverse.map (fun e => "umount " ++ e.dst)

def c2PlanEnv : PlanEnv :=
  { fsys := { pathExists := fun s => (["/dev", "/usr"].contains s),
              isDir := fun s => (["/dev", "/usr"].contains s) },
    cwd := "/w", norm := id, mandatoryDeny := [], tmpdirPath := "/tmp",
    freshHex := fun _ => "00" }

/-- C2 counterexample: for this concrete host view (three planner mounts:
`/dev`, `/usr`, and the working directory) the planner's unmount sequence
is not the mount sequence reversed — the source pushes each unmount in
the same order as its mount. -/
theorem c2_unmounts_not_reversed_counterexample :
    (generateJailFilesystemConfig c2PlanEnv "/tmp/j" none none).2
      ≠ specReversedUnmounts (planEntries c2PlanEnv "/tmp/j" none none) := by
  decide

/-- C2 amended: the planner's unmount sequence lists the same mount
points in the same order as the mount sequence (the i-th unmount targets
the i-th mount's destination), not reversed; and when the Orchestrator
adds the two bridge-socket mounts, their unmounts are prepended before
all planner-produced unmounts. -/
theorem c2_unmount_order_amended :
    (∀ (env : PlanEnv) (jailPath : String)
       (rc : Option FsReadRestrictionConfig)
       (wc : Option FsWriteRestrictionConfig),
      (generateJailFilesystemConfig env jailPath rc wc).2
        = (planEntries env jailPath rc wc).map (fun e => "umount " ++ e.dst))
    ∧ (∀ (env : WrapEnv) (p : FreeBSDSandboxParams) (hs ss : String),
        p.hasNetworkRestrictions = true →
        p.httpSocketPath = some hs → p.socksSocketPath = some ss →
        hs ≠ "" → ss ≠ "" →
        WrapStep.addedBridgeMounts
            ((planEntries env.plan
                (jjoin env.plan.tmpdirPath ("sbx_" ++ env.jailHex))
                p.readConfig p.writeConfig).map (fun e => e.cmd)
              ++ ["mount_nullfs " ++ hs ++ " "
                    ++ jjoin (jjoin env.plan.tmpdirPath ("sbx_" ++ env.jailHex)) hs,
                  "mount_nullfs " ++ ss ++ " "
                    ++ jjoin (jjoin env.plan.tmpdirPath ("sbx_" ++ env.jailHex)) ss])
            (("umount " ++ jjoin (jjoin env.plan.tmpdirPath ("sbx_" ++ env.jailHex)) ss)
              :: ("umount " ++ jjoin (jjoin env.plan.tmpdirPath ("sbx_" ++ env.jailHex)) hs)
              :: (planEntries env.plan
                   (jjoin env.plan.tmpdirPath ("sbx_" ++ env.jailHex))
                   p.readConfig p.writeConfig).map (fun e => e.umountCmd))
          ∈ wrapTrace env p) := by
  constructor
  · intro env jailPath rc wc
    unfold generateJailFilesystemConfig
    exact list_map_eq_of_mem _ _ _ (mem_planEntries_umount env jailPath rc wc)
  · intro env p hs ss hn hh hq hne1 hne2
    have hflag : ¬ (p.hasNetworkRestrictions = false
        ∧ p.hasFilesystemRestrictions = false) := by
      simp [hn]
    have hcond : ¬ (hs = "" ∨ ss = "") := by
      rintro (h | h)
      · exact hne1 h
      · exact hne2 h
    simp [wrapTrace, hflag, hn, hh, hq, hcond]

def c2WrapEnv : WrapEnv :=
  { plan := c2PlanEnv, jailHex := "bb", proxyEnvVars := [], shq := joinBySpace }

def c2Params : FreeBSDSandboxParams :=
  { command := "make", hasNetworkRestrictions := true,
    hasFilesystemRestrictions := false, httpSocketPath := some "/tmp/h.sock",
    socksSocketPath := some "/tmp/s.sock", httpProxyPort := none,
    socksProxyPort := none, readConfig := none, writeConfig := none }

/-- C2 amended witness: both conjuncts at concrete inputs. -/
theorem c2_unmount_order_amended_witness :
    (generateJailFilesystemConfig c2PlanEnv "/tmp/j" none none).2
        = (planEntries c2PlanEnv "/tmp/j" none none).map (fun e => "umount " ++ e.dst)
      ∧ WrapStep.addedBridgeMounts
          ((planEntries c2WrapEnv.plan
              (jjoin c2WrapEnv.plan.tmpdirPath ("sbx_" ++ c2WrapEnv.jailHex))
              c2Params.readConfig c2Params.writeConfig).map (fun e => e.cmd)
            ++ ["mount_nullfs " ++ "/tmp/h.sock" ++ " "
                  ++ jjoin (jjoin c2WrapEnv.plan.tmpdirPath ("sbx_" ++ c2WrapEnv.jailHex)) "/tmp/h.sock",
                "mount_nullfs " ++ "/tmp/s.sock" ++ " "
                  ++ jjoin (jjoin c2WrapEnv.plan.tmpdirPath ("sbx_" ++ c2WrapEnv.jailHex)) "/tmp/s.sock"])
          (("umount " ++ jjoin (jjoin c2WrapEnv.plan.tmpdirPath ("sbx_" ++ c2WrapEnv.jailHex)) "/tmp/s.sock")
            :: ("umount " ++ jjoin (jjoin c2WrapEnv.plan.tmpdirPath ("sbx_" ++ c2WrapEnv.jailHex)) "/tmp/h.sock")
            :: (planEntries c2WrapEnv.plan
                 (jjoin c2WrapEnv.plan.tmpdirPath ("sbx_" ++ c2WrapEnv.jailHex))
                 c2Params.readConfig c2Params.writeConfig).map (fun e => e.umountCmd))
        ∈ wrapTrace c2WrapEnv c2Params :=
  ⟨c2_unmount_order_amended.1 c2PlanEnv "/tmp/j" none none,
   c2_unmount_order_amended.2 c2WrapEnv c2Params "/tmp/h.sock" "/tmp/s.sock"
     rfl rfl rfl (by decide) (by decide)⟩

def c8PlanEnv : PlanEnv :=
  { fsys := { pathExists := fun s => (["/dev"].contains s),
              isDir := fun s => (["/dev"].contains s) },
    cwd := "/w", norm := id, mandatoryDeny := [], tmpdirPath := "/tmp",
    freshHex := fun _ => "00" }

def c8WriteConfig : FsWriteRestrictionConfig :=
  { allowOnly := some [], denyWithinAllow := some ["/dev"] }

/-- C8 counterexample: the skip test of the deny-within-allow loop is a
prefix test against the five-character string slash-dev-slash, which the
four-character path `/dev` itself does not satisfy; so with
`denyWithinAllow = ["/dev"]` the deny-within-allow phase does emit a
read-only remount of the /dev-rooted path `/dev`. -/
theorem c8_dev_itself_remounted_counterexample :
    ("mount_nullfs -o ro /dev /tmp/j/dev")
        ∈ (denyEntries c8PlanEnv "/tmp/j" c8WriteConfig).map (fun e => e.cmd)
      ∧ ("mount_nullfs -o ro /dev /tmp/j/dev")
        ∈ (generateJailFilesystemConfig c8PlanEnv "/tmp/j" none
            (some c8WriteConfig)).1 := by
  decide

/-- C8 amended: the deny-within-allow phase (over both `denyWithinAllow`
and the mandatory-deny list) never emits a read-only remount of a path
strictly under `/dev/`; the path `/dev` itself is not excluded by the
source's prefix test. -/
theorem c8_dev_strict_subpath_skip (env : PlanEnv) (jailPath : String)
    (wc : FsWriteRestrictionConfig) (e : MountEntry)
    (he : e ∈ denyEntries env jailPath wc) (s : String)
    (hs : e.src = some s) :
    strStartsWith s "/dev/" = false := by
  rcases List.mem_filterMap.mp he with ⟨q, -, hq⟩
  simp only [denyEntry] at hq
  split_ifs at hq with h1 h2
  · injection hq with hq
    subst hq
    simp only at hs
    injection hs with hs
    subst hs
    simpa using h1

def c8wPlanEnv : PlanEnv :=
  { fsys := { pathExists := fun s => (["/x"].contains s),
              isDir := fun s => (["/x"].contains s) },
    cwd := "/w", norm := id, mandatoryDeny := [], tmpdirPath := "/tmp",
    freshHex := fun _ => "00" }

def c8wEntry : MountEntry :=
  { cmd := "mount_nullfs -o ro /x /tmp/j/x", umountCmd := "umount /tmp/j/x",
    dst := "/tmp/j/x", src := some "/x" }

/-- C8 amended witness: a concrete deny-within-allow entry for `/x`. -/
theorem c8_dev_strict_subpath_skip_witness :
    strStartsWith "/x" "/dev/" = false :=
  c8_dev_strict_subpath_skip c8wPlanEnv "/tmp/j"
    { allowOnly := some [], denyWithinAllow := some ["/x"] }
    c8wEntry (by decide) "/x" rfl

def c10PlanEnv : PlanEnv :=
  { fsys := { pathExists := fun s => (["/dev"].contains s),
              isDir := fun s => (["/dev"].contains s) },
    cwd := "/w", norm := id, mandatoryDeny := [], tmpdirPath := "/tmp",
    freshHex := fun _ => "00" }

def c10WriteConfig : FsWriteRestrictionConfig :=
  { allowOnly := some ["/dev"], denyWithinAllow := some [] }

/-- C10 counterexample: with `allowOnly = ["/dev"]` both the essential
`/dev` mount and the allow-phase mount target `/tmp/j/dev`, so the mount
list contains a mount whose destination is matched by TWO unmount
commands, not exactly one. -/
theorem c10_exactly_one_unmount_counterexample :
    ¬ (∀ e ∈ planEntries c10PlanEnv "/tmp/j" none (some c10WriteConfig),
        ((generateJailFilesystemConfig c10PlanEnv "/tmp/j" none
            (some c10WriteConfig)).2.count ("umount " ++ e.dst)) = 1) := by
  decide

/-- Moving the first two elements of a list to its back is a
permutation. -/
theorem cons_cons_perm_append {α : Type} (a b : α) (L : List α) :
    (a :: b :: L).Perm (L ++ [b, a]) := by
  have h2 : (a :: b :: L).Perm (b :: a :: L) := List.Perm.swap b a L
  exact h2.trans (@List.perm_append_comm _ [b, a] L)

/-- C10 amended: the planner's mount and unmount lists always have equal
length, with the i-th unmount targeting the i-th mount's destination
(so mount points are matched counted with multiplicity, not uniquely);
and after the Orchestrator's bridge-socket additions the lists still have
equal length and the unmount commands are a permutation of one
`umount <destination>` per mount destination. -/
theorem c10_mount_unmount_pairing_amended :
    (∀ (env : PlanEnv) (jailPath : String)
       (rc : Option FsReadRestrictionConfig)
       (wc : Option FsWriteRestrictionConfig),
      (generateJailFilesystemConfig env jailPath rc wc).1.length
          = (generateJailFilesystemConfig env jailPath rc wc).2.length
        ∧ ∀ i : Nat,
            (generateJailFilesystemConfig env jailPath rc wc).1.get? i
                = Option.map (fun e => e.cmd) ((planEntries env jailPath rc wc).get? i)
              ∧ (generateJailFilesystemConfig env jailPath rc wc).2.get? i
                = Option.map (fun e => "umount " ++ e.dst)
                    ((planEntries env jailPath rc wc).get? i))
    ∧ (∀ (env : WrapEnv) (p : FreeBSDSandboxParams) (hs ss : String),
        p.hasNetworkRestrictions = true →
        p.httpSocketPath = some hs → p.socksSocketPath = some ss →
        hs ≠ "" → ss ≠ "" →
        ∃ m u, WrapStep.addedBridgeMounts m u ∈ wrapTrace env p
          ∧ m.length = u.length
          ∧ u.Perm (((planEntries env.plan
                (jjoin env.plan.tmpdirPath ("sbx_" ++ env.jailHex))
                p.readConfig p.writeConfig).map (fun e => e.dst)
              ++ [jjoin (jjoin env.plan.tmpdirPath ("sbx_" ++ env.jailHex)) hs,
                  jjoin (jjoin env.plan.tmpdirPath ("sbx_" ++ env.jailHex)) ss]).map
                (fun d => "umount " ++ d))) := by
  constructor
  · intro env jailPath rc wc
    constructor
    · simp [generateJailFilesystemConfig]
    · intro i
      constructor
      · simp [generateJailFilesystemConfig, List.get?_map]
      · simp only [generateJailFilesystemConfig, List.get?_map]
        cases h : (planEntries env jailPath rc wc).get? i with
        | none => rfl
        | some e =>
          simp [mem_planEntries_umount env jailPath rc wc e (List.get?_mem h)]
  · intro env p hs ss hn hh hq hne1 hne2
    have hflag : ¬ (p.hasNetworkRestrictions = false
        ∧ p.hasFilesystemRestrictions = false) := by
      simp [hn]
    have hcond : ¬ (hs = "" ∨ ss = "") := by
      rintro (h | h)
      · exact hne1 h
      · exact hne2 h
    refine ⟨(planEntries env.plan
          (jjoin env.plan.tmpdirPath ("sbx_" ++ env.jailHex))
          p.readConfig p.writeConfig).map (fun e => e.cmd)
        ++ ["mount_nullfs " ++ hs ++ " "
              ++ jjoin (jjoin env.plan.tmpdirPath ("sbx_" ++ env.jailHex)) hs,
            "mount_nullfs " ++ ss ++ " "
              ++ jjoin (jjoin env.plan.tmpdirPath ("sbx_" ++ env.jailHex)) ss],
      ("umount " ++ jjoin (jjoin env.plan.tmpdirPath ("sbx_" ++ env.jailHex)) ss)
        :: ("umount " ++ jjoin (jjoin env.plan.tmpdirPath ("sbx_" ++ env.jailHex)) hs)
        :: (planEntries env.plan
             (jjoin env.plan.tmpdirPath ("sbx_" ++ env.jailHex))
             p.readConfig p.writeConfig).map (fun e => e.umountCmd),
      ?_, ?_, ?_⟩
    · simp [wrapTrace, hflag, hn, hh, hq, hcond]
    · simp
    · rw [list_map_eq_of_mem _ _ _
        (mem_planEntries_umount env.plan
          (jjoin env.plan.tmpdirPath ("sbx_" ++ env.jailHex))
          p.readConfig p.writeConfig)]
      simp only [List.map_append, List.map_map, Function.comp]
      exact cons_cons_perm_append _ _ _

def c10WrapEnv : WrapEnv :=
  { plan := c10PlanEnv, jailHex := "cc", proxyEnvVars := [], shq := joinBySpace }

def c10Params : FreeBSDSandboxParams :=
  { command := "make", hasNetworkRestrictions := true,
    hasFilesystemRestrictions := false, httpSocketPath := some "/tmp/h.sock",
    socksSocketPath := some "/tmp/s.sock", httpProxyPort := none,
    socksProxyPort := none, readConfig := none, writeConfig := none }

/-- C10 amended witness: both conjuncts at concrete inputs (taking
index 0 for the pointwise part). -/
theorem c10_mount_unmount_pairing_amended_witness :
    ((generateJailFilesystemConfig c10PlanEnv "/tmp/j" none
          (some c10WriteConfig)).1.length
        = (generateJailFilesystemConfig c10PlanEnv "/tmp/j" none
            (some c10WriteConfig)).2.length)
      ∧ ((generateJailFilesystemConfig c10PlanEnv "/tmp/j" none
            (some c10WriteConfig)).1.get? 0
          = Option.map (fun e => e.cmd)
              ((planEntries c10PlanEnv "/tmp/j" none (some c10WriteConfig)).get? 0)
        ∧ (generateJailFilesystemConfig c10PlanEnv "/tmp/j" none
            (some c10WriteConfig)).2.get? 0
          = Option.map (fun e => "umount " ++ e.dst)
              ((planEntries c10PlanEnv "/tmp/j" none (some c10WriteConfig)).get? 0))
      ∧ (∃ m u, WrapStep.addedBridgeMounts m u ∈ wrapTrace c10WrapEnv c10Params
          ∧ m.length = u.length
          ∧ u.Perm (((planEntries c10WrapEnv.plan
                (jjoin c10WrapEnv.plan.tmpdirPath ("sbx_" ++ c10WrapEnv.jailHex))
                c10Params.readConfig c10Params.writeConfig).map (fun e => e.dst)
              ++ [jjoin (jjoin c10WrapEnv.plan.tmpdirPath ("sbx_" ++ c10WrapEnv.jailHex)) "/tmp/h.sock",
                  jjoin (jjoin c10WrapEnv.plan.tmpdirPath ("sbx_" ++ c10WrapEnv.jailHex)) "/tmp/s.sock"]).map
                (fun d => "umount " ++ d))) :=
  ⟨(c10_mount_unmount_pairing_amended.1 c10PlanEnv "/tmp/j" none
      (some c10WriteConfig)).1,
   (c10_mount_unmount_pairing_amended.1 c10PlanEnv "/tmp/j" none
      (some c10WriteConfig)).2 0,
   c10_mount_unmount_pairing_amended.2 c10WrapEnv c10Params
     "/tmp/h.sock" "/tmp/s.sock" rfl rfl rfl (by decide) (by decide)⟩

/-- C4: for a write policy with `allowOnly = [P]` and
`denyWithinAllow = [Q]` where (the normalized) `Q` is a subpath of `P`,
both exist on the host and neither is under `/dev`, the mount list
contains the read-write bind of `P` strictly before the read-only bind
of `Q`, each targeting the same relative location under the jail root
(`jailPath ++ P`, respectively `jailPath ++ Q`); this is independent of
the read policy and of the mandatory-deny list. -/
theorem c4_allow_before_deny_override (env : PlanEnv) (jailPath P Q : String)
    (rc : Option FsReadRestrictionConfig)
    (hPdev : strStartsWith (env.norm P) "/dev/" = false)
    (hQdev : strStartsWith (env.norm Q) "/dev/" = false)
    (hPex : env.fsys.pathExists (env.norm P) = true)
    (hQex : env.fsys.pathExists (env.norm Q) = true)
    (hsub : strStartsWith (env.norm Q) (env.norm P ++ "/") = true) :
    ∃ l₁ l₂ l₃,
      (generateJailFilesystemConfig env jailPath rc
          (some { allowOnly := some [P], denyWithinAllow := some [Q] })).1
        = l₁ ++ ("mount_nullfs " ++ env.norm P ++ " " ++ jjoin jailPath (env.norm P))
            :: l₂ ++ ("mount_nullfs -o ro " ++ env.norm Q ++ " " ++ jjoin jailPath (env.norm Q))
            :: l₃ := by
  refine ⟨(essentialEntries env jailPath).map (fun e => e.cmd), [],
    ((env.mandatoryDeny.filterMap (denyEntry env jailPath)).map (fun e => e.cmd))
      ++ (readEntries env jailPath rc).map (fun e => e.cmd), ?_⟩
  simp [generateJailFilesystemConfig, planEntries, allowEntries, denyEntries,
    allowEntry, denyEntry, hPdev, hQdev, hPex, hQex]

def c4PlanEnv : PlanEnv :=
  { fsys := { pathExists := fun s => (["/a", "/a/b"].contains s),
              isDir := fun s => (["/a", "/a/b"].contains s) },
    cwd := "/w", norm := id, mandatoryDeny := [], tmpdirPath := "/tmp",
    freshHex := fun _ => "00" }

/-- C4 witness: `P = /a`, `Q = /a/b` on a host where both exist. -/
theorem c4_allow_before_deny_override_witness :
    ∃ l₁ l₂ l₃,
      (generateJailFilesystemConfig c4PlanEnv "/tmp/j" none
          (some { allowOnly := some ["/a"], denyWithinAllow := some ["/a/b"] })).1
        = l₁ ++ ("mount_nullfs " ++ c4PlanEnv.norm "/a" ++ " " ++ jjoin "/tmp/j" (c4PlanEnv.norm "/a"))
            :: l₂ ++ ("mount_nullfs -o ro " ++ c4PlanEnv.norm "/a/b" ++ " " ++ jjoin "/tmp/j" (c4PlanEnv.norm "/a/b"))
            :: l₃ :=
  c4_allow_before_deny_override c4PlanEnv "/tmp/j" "/a" "/a/b" none
    (by decide) (by decide) (by decide) (by decide) (by decide)

/-- Every essential-phase entry binds one of the six fixed host
directories. -/
theorem mem_essentialEntries_src (env : PlanEnv) (jailPath : String) :
    ∀ e ∈ essentialEntries env jailPath, ∃ s, e.src = some s
      ∧ (["/dev", "/usr", "/bin", "/lib", "/libexec", "/etc"].contains s) = true := by
  intro e he
  rcases List.mem_filterMap.mp he with ⟨m, hmem, hm⟩
  have hsrc : (["/dev", "/usr", "/bin", "/lib", "/libexec", "/etc"].contains m.esrc) = true := by
    simp only [essentialMountSpecs, List.mem_cons, List.not_mem_nil,
      or_false] at hmem
    rcases hmem with h | h | h | h | h | h <;> (subst h; rfl)
  split_ifs at hm <;>
    first
      | (injection hm with hm; subst hm; exact ⟨m.esrc, rfl, hsrc⟩)
      | simp at hm

/-- C5: for a read policy with `denyOnly = [D]` (and no write policy)
where `D` exists on the host, is not one of the six essential sources and
differs from the working directory: no mount in the whole list binds the
host path `D` itself; if `D` is a directory the list ends with the empty
tmpfs mount hiding it (no nullfs bind of real content), and if `D` is a
regular file the list ends with a read-only nullfs bind of the freshly
created empty file over the target. -/
theorem c5_read_deny_hiding (env : PlanEnv) (jailPath D : String)
    (hex : env.fsys.pathExists (env.norm D) = true)
    (hness : (["/dev", "/usr", "/bin", "/lib", "/libexec", "/etc"].contains
        (env.norm D)) = false)
    (hncwd : env.norm D ≠ env.cwd)
    (hfresh : jjoin env.tmpdirPath ("empty-" ++ env.freshHex 0) ≠ env.norm D) :
    (∀ e ∈ planEntries env jailPath (some { denyOnly := some [D] }) none,
        e.src ≠ some (env.norm D))
    ∧ (env.fsys.isDir (env.norm D) = true →
        (generateJailFilesystemConfig env jailPath
            (some { denyOnly := some [D] }) none).1
          = ((essentialEntries env jailPath).map (fun e => e.cmd))
            ++ [(cwdEntry env jailPath).cmd,
                "mount -t tmpfs tmpfs " ++ jjoin jailPath (env.norm D)])
    ∧ (env.fsys.isDir (env.norm D) = false →
        (generateJailFilesystemConfig env jailPath
            (some { denyOnly := some [D] }) none).1
          = ((essentialEntries env jailPath).map (fun e => e.cmd))
            ++ [(cwdEntry env jailPath).cmd,
                "mount_nullfs -o ro "
                  ++ jjoin env.tmpdirPath ("empty-" ++ env.freshHex 0)
                  ++ " " ++ jjoin jailPath (env.norm D)]) := by
  refine ⟨?_, ?_, ?_⟩
  · intro e he
    unfold planEntries at he
    simp only [List.mem_append] at he
    rcases he with (he | he) | he
    · rcases mem_essentialEntries_src env jailPath e he with ⟨s, hsrc, hsin⟩
      intro hcon
      rw [hsrc] at hcon
      injection hcon with hcon
      subst hcon
      rw [hsin] at hness
      exact Bool.true_eq_false.mp hness
    · rcases List.mem_singleton.mp he with rfl
      intro hcon
      injection hcon with hcon
      exact hncwd hcon.symm
    · simp only [readEntries, readEntriesAux, hex, if_true] at he
      by_cases hd : env.fsys.isDir (env.norm D) = true
      · simp only [hd, if_true] at he
        rcases List.mem_cons.mp he with h | h
        · subst h; intro hcon; cases hcon
        · simp [readEntriesAux] at h
      · simp only [Bool.not_eq_true] at hd
        simp only [hd] at he
        rcases List.mem_cons.mp he with h | h
        · subst h
          intro hcon
          injection hcon with hcon
          exact hfresh hcon
        · simp [readEntriesAux] at h
  · intro hdir
    simp [generateJailFilesystemConfig, planEntries, readEntries,
      readEntriesAux, hex, hdir]
  · intro hdir
    simp [generateJailFilesystemConfig, planEntries, readEntries,
      readEntriesAux, hex, hdir]

def c5DirPlanEnv : PlanEnv :=
  { fsys := { pathExists := fun s => (["/secret"].contains s),
              isDir := fun s => (["/secret"].contains s) },
    cwd := "/w", norm := id, mandatoryDeny := [], tmpdirPath := "/tmp",
    freshHex := fun _ => "00" }

def c5FilePlanEnv : PlanEnv :=
  { fsys := { pathExists := fun s => (["/secret.txt"].contains s),
              isDir := fun _ => false },
    cwd := "/w", norm := id, mandatoryDeny := [], tmpdirPath := "/tmp",
    freshHex := fun _ => "00" }

/-- C5 witness: a denied existing directory (hidden by tmpfs, never
binding it), and a denied existing regular file (hidden by a read-only
bind of the fresh empty file). -/
theorem c5_read_deny_hiding_witness :
    (generateJailFilesystemConfig c5DirPlanEnv "/tmp/j"
          (some { denyOnly := some ["/secret"] }) none).1
        = ((essentialEntries c5DirPlanEnv "/tmp/j").map (fun e => e.cmd))
          ++ [(cwdEntry c5DirPlanEnv "/tmp/j").cmd,
              "mount -t tmpfs tmpfs " ++ jjoin "/tmp/j" (c5DirPlanEnv.norm "/secret")]
      ∧ (generateJailFilesystemConfig c5FilePlanEnv "/tmp/j"
          (some { denyOnly := some ["/secret.txt"] }) none).1
        = ((essentialEntries c5FilePlanEnv "/tmp/j").map (fun e => e.cmd))
          ++ [(cwdEntry c5FilePlanEnv "/tmp/j").cmd,
              "mount_nullfs -o ro "
                ++ jjoin c5FilePlanEnv.tmpdirPath ("empty-" ++ c5FilePlanEnv.freshHex 0)
                ++ " " ++ jjoin "/tmp/j" (c5FilePlanEnv.norm "/secret.txt")]
      ∧ (∀ e ∈ planEntries c5DirPlanEnv "/tmp/j"
            (some { denyOnly := some ["/secret"] }) none,
          e.src ≠ some (c5DirPlanEnv.norm "/secret")) :=
  ⟨(c5_read_deny_hiding c5DirPlanEnv "/tmp/j" "/secret"
      (by decide) (by decide) (by decide) (by decide)).2.1 rfl,
   (c5_read_deny_hiding c5FilePlanEnv "/tmp/j" "/secret.txt"
      (by decide) (by decide) (by decide) (by decide)).2.2 rfl,
   (c5_read_deny_hiding c5DirPlanEnv "/tmp/j" "/secret"
      (by decide) (by decide) (by decide) (by decide)).1⟩

def c1PlanEnv : PlanEnv :=
  { fsys := { pathExists := fun s => (["/usr"].contains s),
              isDir := fun s => (["/usr"].contains s) },
    cwd := "/w", norm := id, mandatoryDeny := [], tmpdirPath := "/tmp",
    freshHex := fun _ => "00" }

def c1WrapEnv : WrapEnv :=
  { plan := c1PlanEnv, jailHex := "ab", proxyEnvVars := [], shq := joinBySpace }

def c1Params : FreeBSDSandboxParams :=
  { command := "false", hasNetworkRestrictions := false,
    hasFilesystemRestrictions := true, httpSocketPath := none,
    socksSocketPath := none, httpProxyPort := none, socksProxyPort := none,
    readConfig := none, writeConfig := none }

def c1Mounts : List String :=
  (planEntries c1PlanEnv "/tmp/sbx_ab" none none).map (fun e => e.cmd)

def c1Unmounts : List String :=
  (planEntries c1PlanEnv "/tmp/sbx_ab" none none).map (fun e => e.umountCmd)

def c1JailLine : String :=
  joinBySpace ("jail" :: (basicJailArgs "sbx_ab" "/tmp/sbx_ab"
    ++ inheritNetArgs ++ hardeningArgs ++ [commandJailArg "false"]))

/-- The structured form of the wrapper script the Orchestrator returns at
the C1 failing input. -/
def c1Items : List (Conn × ScriptCmd) :=
  wrapperItems c1Mounts c1Unmounts c1JailLine ("rm -rf /tmp/sbx_ab")

/-- Command statuses at the C1 failing input: every mount, unmount and rm
succeeds; the jail invocation exits 7. -/
def c1Status : String → Nat :=
  fun s => if s = c1JailLine then 7 else 0

set_option maxRecDepth 4000 in
/-- C1 (code-bug evidence): at this concrete restricted invocation the
returned wrapper script is exactly the rendered structured script; under
shell semantics where every mount, unmount and rm succeeds but the jail
invocation exits 7, the `EXIT_CODE=$?` capture never executes, the first
unmount command is never attempted (only the unmounts after the first
semicolon run), and the script finishes with exit status 0 instead of the
jail's 7 — the unconditional-teardown and status-propagation contract of
the wrapper comment (source lines 484-487) is violated because the parts
are joined with the short-circuiting and. -/
theorem c1_wrapper_contract_violated :
    wrapCommandWithSandboxFreeBSD c1WrapEnv c1Params
        = Except.ok ("sh -c " ++ joinBySpace
            [wrapperScriptString c1Mounts c1Unmounts c1JailLine "/tmp/sbx_ab"])
      ∧ renderItems c1Items
        = wrapperScriptString c1Mounts c1Unmounts c1JailLine "/tmp/sbx_ab"
      ∧ c1Status c1JailLine = 7
      ∧ ScriptCmd.prim "umount /tmp/sbx_ab/usr" ∉ (runWrapperScript c1Status c1Items).ran
      ∧ ScriptCmd.captureExit ∉ (runWrapperScript c1Status c1Items).ran
      ∧ ScriptCmd.prim "umount /tmp/sbx_ab/w" ∈ (runWrapperScript c1Status c1Items).ran
      ∧ ScriptCmd.prim "rm -rf /tmp/sbx_ab" ∈ (runWrapperScript c1Status c1Items).ran
      ∧ scriptFinalStatus c1Status c1Items = 0 := by
  refine ⟨rfl, rfl, ?_, ?_, ?_, ?_, ?_, ?_⟩ <;> decide

/-- The three events of one unsuccessful non-final poll attempt. -/
def pollStep (i : Nat) : List BridgeEvent :=
  [BridgeEvent.checkedLiveness i, BridgeEvent.checkedSockets i,
   BridgeEvent.slept (i * 100)]

/-- Events of the unsuccessful attempts `i, ..., j - 1`. -/
def pollStepsFrom (i j : Nat) : List BridgeEvent :=
  ((List.range' i (j - i)).map pollStep).join

/-- One alive, not-ready, non-final attempt contributes its three events
and the loop continues. -/
theorem bridgeAttemptsFrom_step (env : BridgeEnv) (i rem : Nat)
    (ha : bridgeAlive env i = true) (hs : bridgeSockOk env i = false)
    (ht : env.checkThrows i = false) (hi : i ≠ maxAttempts - 1) :
    bridgeAttemptsFrom env i (rem + 1)
      = pollStep i ++ bridgeAttemptsFrom env (i + 1) rem := by
  simp [bridgeAttemptsFrom, pollStep, ha, hs, ht, hi]

/-- A failed liveness check ends the loop at once. -/
theorem bridgeAttemptsFrom_dead (env : BridgeEnv) (i rem : Nat)
    (ha : bridgeAlive env i = false) :
    bridgeAttemptsFrom env i (rem + 1)
      = [BridgeEvent.checkedLiveness i, BridgeEvent.diedFailure] := by
  simp [bridgeAttemptsFrom, ha]

/-- The final attempt, still not ready: termination signals are attempted
on both processes (both have pids) and the loop throws. -/
theorem bridgeAttemptsFrom_last (env : BridgeEnv)
    (ha : bridgeAlive env 4 = true) (hs : bridgeSockOk env 4 = false)
    (ht : env.checkThrows 4 = false)
    (hp : pidTruthy (env.httpProc 4).pid = true)
    (hq : pidTruthy (env.socksProc 4).pid = true) :
    bridgeAttemptsFrom env 4 1
      = [BridgeEvent.checkedLiveness 4, BridgeEvent.checkedSockets 4,
         BridgeEvent.sentKillHttp, BridgeEvent.sentKillSocks,
         BridgeEvent.notReadyFailure] := by
  simp [bridgeAttemptsFrom, ha, hs, ht, hp, hq, maxAttempts]

/-- If attempts before `j` are alive but not ready and the liveness check
fails at attempt `j`, the loop's events are the `j` unsuccessful attempts
followed by the immediate death failure. -/
theorem bridgeAttemptsFrom_died_at (env : BridgeEnv) :
    ∀ (rem i j : Nat), i + rem = maxAttempts → i ≤ j → j < maxAttempts →
      (∀ k, i ≤ k → k < j →
        bridgeAlive env k = true ∧ bridgeSockOk env k = false
          ∧ env.checkThrows k = false) →
      bridgeAlive env j = false →
      bridgeAttemptsFrom env i rem
        = pollStepsFrom i j
            ++ [BridgeEvent.checkedLiveness j, BridgeEvent.diedFailure] := by
  intro rem
  induction rem with
  | zero =>
    intro i j hsum hij hj hgood hdead
    exfalso
    simp [maxAttempts] at hsum hj
    omega
  | succ rem ih =>
    intro i j hsum hij hj hgood hdead
    rcases Nat.eq_or_lt_of_le hij with heq | hlt
    · subst heq
      rw [bridgeAttemptsFrom_dead env i rem hdead]
      have hnil : pollStepsFrom i i = [] := by
        simp [pollStepsFrom, Nat.sub_self]
      rw [hnil, List.nil_append]
    · obtain ⟨h1, h2, h3⟩ := hgood i (Nat.le_refl i) hlt
      have hi4 : i ≠ maxAttempts - 1 := by
        simp only [maxAttempts] at hj ⊢
        omega
      rw [bridgeAttemptsFrom_step env i rem h1 h2 h3 hi4]
      rw [ih (i + 1) j (by simp only [maxAttempts] at hsum ⊢; omega) hlt hj
        (fun k hk1 hk2 => hgood k (by omega) hk2) hdead]
      have hsplit : pollStepsFrom i j = pollStep i ++ pollStepsFrom (i + 1) j := by
        have hr : j - i = (j - (i + 1)) + 1 := by omega
        simp only [pollStepsFrom]
        rw [hr]
        rfl
      rw [hsplit, List.append_assoc]

/-- C7: if the socket files never both exist, then after the fixed budget
of five polling attempts — on each attempt the liveness of both processes
checked before socket existence, with inter-attempt delays 0, 100, 200,
300 ms growing linearly with the attempt index — a termination signal is
attempted on both bridge processes and the call fails with
`BridgeNotReady`; and if either process fails the liveness check at some
attempt, the call fails immediately with `BridgeProcessDied`, with no
socket check at that attempt and no further attempts. -/
theorem c7_bridge_poll_failure (env : BridgeEnv) :
    ((∀ i, i < maxAttempts → bridgeAlive env i = true) →
     (∀ i, i < maxAttempts → bridgeSockOk env i = false) →
     (∀ i, i < maxAttempts → env.checkThrows i = false) →
     bridgeWaitEvents env
         = [BridgeEvent.checkedLiveness 0, BridgeEvent.checkedSockets 0,
            BridgeEvent.slept 0,
            BridgeEvent.checkedLiveness 1, BridgeEvent.checkedSockets 1,
            BridgeEvent.slept 100,
            BridgeEvent.checkedLiveness 2, BridgeEvent.checkedSockets 2,
            BridgeEvent.slept 200,
            BridgeEvent.checkedLiveness 3, BridgeEvent.checkedSockets 3,
            BridgeEvent.slept 300,
            BridgeEvent.checkedLiveness 4, BridgeEvent.checkedSockets 4,
            BridgeEvent.sentKillHttp, BridgeEvent.sentKillSocks,
            BridgeEvent.notReadyFailure]
       ∧ bridgeOutcome env = BridgeOutcome.notReady)
    ∧ (∀ j, j < maxAttempts →
        (∀ k, k < j → bridgeAlive env k = true ∧ bridgeSockOk env k = false
          ∧ env.checkThrows k = false) →
        bridgeAlive env j = false →
        bridgeWaitEvents env
            = pollStepsFrom 0 j
                ++ [BridgeEvent.checkedLiveness j, BridgeEvent.diedFailure]
          ∧ bridgeOutcome env = BridgeOutcome.processDied) := by
  constructor
  · intro ha hs ht
    have ha4 := ha 4 (by decide)
    have hcomp := ha4
    simp only [bridgeAlive, Bool.and_eq_true] at hcomp
    obtain ⟨⟨⟨hp4, hb4⟩, hc4⟩, hd4⟩ := hcomp
    have e0 : bridgeAttemptsFrom env 0 5
        = pollStep 0 ++ bridgeAttemptsFrom env 1 4 :=
      bridgeAttemptsFrom_step env 0 4 (ha 0 (by decide)) (hs 0 (by decide))
        (ht 0 (by decide)) (by decide)
    have e1 : bridgeAttemptsFrom env 1 4
        = pollStep 1 ++ bridgeAttemptsFrom env 2 3 :=
      bridgeAttemptsFrom_step env 1 3 (ha 1 (by decide)) (hs 1 (by decide))
        (ht 1 (by decide)) (by decide)
    have e2 : bridgeAttemptsFrom env 2 3
        = pollStep 2 ++ bridgeAttemptsFrom env 3 2 :=
      bridgeAttemptsFrom_step env 2 2 (ha 2 (by decide)) (hs 2 (by decide))
        (ht 2 (by decide)) (by decide)
    have e3 : bridgeAttemptsFrom env 3 2
        = pollStep 3 ++ bridgeAttemptsFrom env 4 1 :=
      bridgeAttemptsFrom_step env 3 1 (ha 3 (by decide)) (hs 3 (by decide))
        (ht 3 (by decide)) (by decide)
    have e4 := bridgeAttemptsFrom_last env ha4 (hs 4 (by decide))
      (ht 4 (by decide)) hp4 hc4
    have htrace : bridgeWaitEvents env
        = [BridgeEvent.checkedLiveness 0, BridgeEvent.checkedSockets 0,
           BridgeEvent.slept 0,
           BridgeEvent.checkedLiveness 1, BridgeEvent.checkedSockets 1,
           BridgeEvent.slept 100,
           BridgeEvent.checkedLiveness 2, BridgeEvent.checkedSockets 2,
           BridgeEvent.slept 200,
           BridgeEvent.checkedLiveness 3, BridgeEvent.checkedSockets 3,
           BridgeEvent.slept 300,
           BridgeEvent.checkedLiveness 4, BridgeEvent.checkedSockets 4,
           BridgeEvent.sentKillHttp, BridgeEvent.sentKillSocks,
           BridgeEvent.notReadyFailure] := by
      show bridgeAttemptsFrom env 0 5 = _
      rw [e0, e1, e2, e3, e4]
      rfl
    exact ⟨htrace, by rw [bridgeOutcome, htrace]; rfl⟩
  · intro j hj hgood hdead
    have htrace : bridgeWaitEvents env
        = pollStepsFrom 0 j
            ++ [BridgeEvent.checkedLiveness j, BridgeEvent.diedFailure] :=
      bridgeAttemptsFrom_died_at env maxAttempts 0 j (by simp) (Nat.zero_le j)
        hj (fun k _ hk2 => hgood k hk2) hdead
    refine ⟨htrace, ?_⟩
    rw [bridgeOutcome, htrace]
    rw [show pollStepsFrom 0 j
          ++ [BridgeEvent.checkedLiveness j, BridgeEvent.diedFailure]
        = (pollStepsFrom 0 j ++ [BridgeEvent.checkedLiveness j])
            ++ [BridgeEvent.diedFailure] by simp]
    rw [List.getLast?_concat]

def c7NeverReadyEnv : BridgeEnv :=
  { httpProc := fun _ => { pid := some 11, killed := false },
    socksProc := fun _ => { pid := some 12, killed := false },
    httpSock := fun _ => false, socksSock := fun _ => true,
    checkThrows := fun _ => false }

def c7DiesEnv : BridgeEnv :=
  { httpProc := fun i => if i < 2 then { pid := some 11, killed := false }
      else { pid := some 11, killed := true },
    socksProc := fun _ => { pid := some 12, killed := false },
    httpSock := fun _ => false, socksSock := fun _ => false,
    checkThrows := fun _ => false }

/-- C7 witness: a run whose sockets never both appear (five attempts,
kills, `BridgeNotReady`), and a run whose first process dies before
attempt 2 (immediate `BridgeProcessDied`). -/
theorem c7_bridge_poll_failure_witness :
    (bridgeWaitEvents c7NeverReadyEnv
        = [BridgeEvent.checkedLiveness 0, BridgeEvent.checkedSockets 0,
           BridgeEvent.slept 0,
           BridgeEvent.checkedLiveness 1, BridgeEvent.checkedSockets 1,
           BridgeEvent.slept 100,
           BridgeEvent.checkedLiveness 2, BridgeEvent.checkedSockets 2,
           BridgeEvent.slept 200,
           BridgeEvent.checkedLiveness 3, BridgeEvent.checkedSockets 3,
           BridgeEvent.slept 300,
           BridgeEvent.checkedLiveness 4, BridgeEvent.checkedSockets 4,
           BridgeEvent.sentKillHttp, BridgeEvent.sentKillSocks,
           BridgeEvent.notReadyFailure]
      ∧ bridgeOutcome c7NeverReadyEnv = BridgeOutcome.notReady)
    ∧ (bridgeWaitEvents c7DiesEnv
        = pollStepsFrom 0 2
            ++ [BridgeEvent.checkedLiveness 2, BridgeEvent.diedFailure]
      ∧ bridgeOutcome c7DiesEnv = BridgeOutcome.processDied) :=
  ⟨(c7_bridge_poll_failure c7NeverReadyEnv).1
      (fun _ _ => rfl) (fun _ _ => rfl) (fun _ _ => rfl),
   (c7_bridge_poll_failure c7DiesEnv).2 2 (by decide)
      (fun k hk => by interval_cases k <;> exact ⟨rfl, rfl, rfl⟩)
      (by decide)⟩
